import Mathlib

/-!
Shallow embedding of `src/lib/base-api-client.ts`, the endpoint builder of
the `api-client` repository.  The file ships two near-identical variants of
`BaseApiClient.createEndpoint`; this development embeds the second variant
(the one whose call payload is an `{ input, variables }` envelope and whose
handle is the callable itself with attached properties), which is the
variant every claim's later line range points at.  The first variant only
differs in payload plumbing; where a claim's truth value depends on the
variant this is noted at the claim's theorem.

Modelling conventions:
  * JavaScript runtime values are modelled by the inductive `Value`
    (`undefined` is `undefined`, `obj` an object literal, field access with
    optional chaining is `Value.getField`).
  * A zod schema is modelled by its validation predicate (`Schema.pred`);
    `schema.parse(v)` succeeds exactly when the predicate holds and raises
    a `ZodError` otherwise.  The builder discards every `parse` result, so
    the predicate view is faithful.
  * The axios instance is modelled by a `Transport`: a function from the
    per-verb positional call shape (`TransportCall`) to either a response
    envelope or an `AxiosError` message.  `this.axios` is threaded as an
    explicit argument `t`.
  * `crypto.randomUUID()` is modelled by `randomUUID` over an explicit
    freshness supply: every draw yields a token never produced before,
    which is the property the builder relies on.
  * `call` additionally returns the ordered trace (`List CallEvent`) of the
    observable steps it performs - schema parses, invocations of the
    caller-supplied option/path functions, and the transport dispatch -
    so that ordering and "transport never reached" statements are
    expressible.
-/

namespace ApiClient

/-- Model of a JavaScript runtime value as passed through the builder:
payload envelopes, request options, response bodies and key segments. -/
inductive Value : Type where
  | undefined : Value
  | null : Value
  | bool (b : Bool) : Value
  | num (n : Int) : Value
  | str (s : String) : Value
  | uuid (token : Nat) : Value
  | arr (elems : List Value) : Value
  | obj (fields : List (String × Value)) : Value
deriving Repr

/-- JavaScript truthiness, as used by `data ? ... : ...` in `queryKey`. -/
def Value.truthy : Value → Bool
  | .undefined => false
  | .null => false
  | .bool b => b
  | .num n => n != 0
  | .str s => s != ""
  | .uuid _ => true
  | .arr _ => true
  | .obj _ => true

/-- JavaScript `x == null` nullishness, as used by `opts ?? {}`. -/
def Value.nullish : Value → Bool
  | .undefined => true
  | .null => true
  | _ => false

/-- Field access with optional chaining: `v?.k` is `undefined` unless `v`
is an object carrying the key (later duplicate keys win, as in JS). -/
def Value.getField : Value → String → Value
  | .obj fields, k =>
      match fields.reverse.find? (fun p => p.1 == k) with
      | some p => p.2
      | none => .undefined
  | _, _ => .undefined

/-- Model of a zod schema: the predicate deciding whether `parse` accepts a
value.  The builder never uses the parsed result, only success/failure. -/
structure Schema : Type where
  pred : Value → Bool

/-- The HTTP method of a descriptor.  The TypeScript type restricts it to
the five verb literals, but the implementation still guards at runtime
(`throw new Error("API SDK: Unsupported method: ...")`), reachable from
untyped JavaScript callers; `other` models such an out-of-contract value. -/
inductive Method : Type where
  | GET : Method
  | POST : Method
  | PUT : Method
  | PATCH : Method
  | DELETE : Method
  | other (text : String) : Method
deriving Repr, DecidableEq

/-- The string the method interpolates to (used in the runtime error). -/
def Method.text : Method → String
  | .GET => "GET"
  | .POST => "POST"
  | .PUT => "PUT"
  | .PATCH => "PATCH"
  | .DELETE => "DELETE"
  | .other s => s

/-- Model of an `AxiosResponse` envelope: body plus status metadata. -/
structure AxiosResponse : Type where
  data : Value
  status : Int
  headers : Value
deriving Repr

/-- One positional call to the transport collaborator, one constructor per
axios verb method with that method's positional argument shape. -/
inductive TransportCall : Type where
  | get (url : String) (options : Value) : TransportCall
  | post (url : String) (body : Value) (options : Value) : TransportCall
  | put (url : String) (body : Value) (options : Value) : TransportCall
  | patch (url : String) (body : Value) (options : Value) : TransportCall
  | delete (url : String) (options : Value) : TransportCall
deriving Repr

/-- Model of the axios instance: maps one transport call to a response
envelope or an `AxiosError` (modelled by its message). -/
abbrev Transport : Type := TransportCall → Except String AxiosResponse

/-- The errors a call can surface: a zod validation error (carrying the
offending value), a transport error propagated unchanged, or the runtime
unsupported-method error. -/
inductive ApiError : Type where
  | zod (offending : Value) : ApiError
  | axios (message : String) : ApiError
  | unsupported (message : String) : ApiError
deriving Repr

/-- Observable steps of one `call` invocation, in execution order:
schema parses, invocations of the caller-supplied `axiosOptions` / `path`
functions, the transport dispatch, and the output parse. -/
inductive CallEvent : Type where
  | parseInput (value : Value) : CallEvent
  | parseVariables (value : Value) : CallEvent
  | resolveAxiosOptions : CallEvent
  | resolvePath : CallEvent
  | transport (c : TransportCall) : CallEvent
  | parseOutput (value : Value) : CallEvent
deriving Repr

/-- The endpoint descriptor: argument of `createEndpoint` (second variant).
`path` is a literal string or a function of the payload envelope;
`axiosOptions` optionally derives an `AxiosRequestConfig` (an object
`Value`) from the payload. -/
structure EndpointConfig : Type where
  method : Method
  path : String ⊕ (Value → String)
  axiosOptions : Option (Value → Value) := none
  variablesSchema : Option Schema := none
  inputSchema : Option Schema := none
  outputSchema : Schema

/-- The `const data = (opts ?? {})` normalisation at the top of `call`. -/
def normData (opts : Value) : Value :=
  if opts.nullish then Value.obj [] else opts

/-- The `axiosOptionsFn?.(data)` resolution: `undefined` when no
option-deriving function was declared. -/
def resolveAxiosOptions (cfg : EndpointConfig) (data : Value) : Value :=
  match cfg.axiosOptions with
  | some f => f data
  | none => Value.undefined

/-- The `typeof path === "function" ? path(data) : path` resolution. -/
def resolveUrl (cfg : EndpointConfig) (data : Value) : String :=
  match cfg.path with
  | .inl s => s
  | .inr f => f data

/-- Trace contribution of resolving options: the caller-supplied function
is invoked exactly when it was declared. -/
def optionEvents (cfg : EndpointConfig) : List CallEvent :=
  match cfg.axiosOptions with
  | some _ => [CallEvent.resolveAxiosOptions]
  | none => []

/-- Trace contribution of resolving the path: the caller-supplied function
is invoked exactly when the path is a function. -/
def pathEvents (cfg : EndpointConfig) : List CallEvent :=
  match cfg.path with
  | .inr _ => [CallEvent.resolvePath]
  | .inl _ => []

/-- The method dispatch of `call`: GET and DELETE call the transport with
`(url, options)`; POST, PUT and PATCH with `(url, options?.data, options)`;
any other method value falls through to the runtime throw (`none`). -/
def mkTransportCall (m : Method) (url : String) (axiosOptions : Value) :
    Option TransportCall :=
  match m with
  | .GET => some (.get url axiosOptions)
  | .POST => some (.post url (axiosOptions.getField "data") axiosOptions)
  | .PUT => some (.put url (axiosOptions.getField "data") axiosOptions)
  | .PATCH => some (.patch url (axiosOptions.getField "data") axiosOptions)
  | .DELETE => some (.delete url axiosOptions)
  | .other _ => none

/-- The tail of `call` after both validations: resolve options, resolve
the url, dispatch per method, parse the response body against the output
schema, and return the full response envelope. -/
def callAfterValidation (cfg : EndpointConfig) (t : Transport) (data : Value) :
    Except ApiError AxiosResponse × List CallEvent :=
  let axiosOptions := resolveAxiosOptions cfg data
  let url := resolveUrl cfg data
  let pre := optionEvents cfg ++ pathEvents cfg
  match mkTransportCall cfg.method url axiosOptions with
  | none =>
      (.error (.unsupported ("API SDK: Unsupported method: " ++ cfg.method.text)), pre)
  | some tc =>
      match t tc with
      | .error msg => (.error (.axios msg), pre ++ [CallEvent.transport tc])
      | .ok response =>
          if cfg.outputSchema.pred response.data then
            (.ok response, pre ++ [CallEvent.transport tc, CallEvent.parseOutput response.data])
          else
            (.error (.zod response.data),
              pre ++ [CallEvent.transport tc, CallEvent.parseOutput response.data])

/-- The `if (variablesSchema) variablesSchema.parse(data.variables)` step,
followed by the rest of `call`. -/
def callAfterInput (cfg : EndpointConfig) (t : Transport) (data : Value) :
    Except ApiError AxiosResponse × List CallEvent :=
  match cfg.variablesSchema with
  | some s =>
      if s.pred (data.getField "variables") then
        let r := callAfterValidation cfg t data
        (r.1, CallEvent.parseVariables (data.getField "variables") :: r.2)
      else
        (.error (.zod (data.getField "variables")),
          [CallEvent.parseVariables (data.getField "variables")])
  | none => callAfterValidation cfg t data

/-- The shared validated-call implementation produced by `createEndpoint`:
normalise the payload, parse `data.input` when an input schema is present,
parse `data.variables` when a variables schema is present, then continue
with option/path resolution and dispatch.  Returns the call result and the
ordered trace of observable steps. -/
def call (cfg : EndpointConfig) (t : Transport) (opts : Value) :
    Except ApiError AxiosResponse × List CallEvent :=
  let data := normData opts
  match cfg.inputSchema with
  | some s =>
      if s.pred (data.getField "input") then
        let r := callAfterInput cfg t data
        (r.1, CallEvent.parseInput (data.getField "input") :: r.2)
      else
        (.error (.zod (data.getField "input")),
          [CallEvent.parseInput (data.getField "input")])
  | none => callAfterInput cfg t data

/-- Model of `crypto.randomUUID()` over an explicit freshness supply: the
drawn token is the current supply value and the supply advances, so no two
draws in one process return the same token. -/
def randomUUID (supply : Nat) : Nat × Nat :=
  (supply, supply + 1)

/-- The built endpoint handle: the `uuid` captured at build time and the
descriptor (the second variant attaches the latter as `config`).  The
callable itself and the derived functions are the operations below,
closing over these two fields. -/
structure Endpoint : Type where
  uuid : Nat
  config : EndpointConfig

/-- The body of `createEndpoint`: draw one uuid from the supply and close
over it together with the descriptor.  No method check happens here; the
unsupported-method guard lives inside `call`. -/
def createEndpoint (cfg : EndpointConfig) (supply : Nat) : Endpoint × Nat :=
  let r := randomUUID supply
  ({ uuid := r.1, config := cfg }, r.2)

/-- The `queryKey` generator: `data ? [tags..., uuid, data] : [tags..., uuid]`
- the payload segment is appended exactly when the argument is truthy. -/
def queryKey (uuid : Nat) (data : Value) : List Value :=
  if data.truthy then
    [Value.str "api-call", Value.str "query", Value.uuid uuid, data]
  else
    [Value.str "api-call", Value.str "query", Value.uuid uuid]

/-- The `mutationKey` generator: a constant per endpoint, tags plus uuid. -/
def mutationKey (uuid : Nat) : List Value :=
  [Value.str "api-call", Value.str "mutation", Value.uuid uuid]

/-- The handle's attached `queryKey`. -/
def Endpoint.queryKey (ep : Endpoint) (data : Value) : List Value :=
  ApiClient.queryKey ep.uuid data

/-- The handle's attached `mutationKey`. -/
def Endpoint.mutationKey (ep : Endpoint) : List Value :=
  ApiClient.mutationKey ep.uuid

/-- The handle's callable itself (`Object.assign(call, ...)`). -/
def Endpoint.call (ep : Endpoint) (t : Transport) (opts : Value) :
    Except ApiError AxiosResponse × List CallEvent :=
  ApiClient.call ep.config t opts

/-- Caller argument of `queryOptions`: the payload under `data`, an
optional caller-supplied `queryKey` override, the optional `onSuccess` /
`onError` hooks (modelled by presence flags, their behaviour is external),
and the remaining react-query fields as an opaque field list.  `queryFn`
is absent by construction: the TypeScript type `Omit`s it. -/
structure ReactQueryOptions : Type where
  data : Value := Value.undefined
  queryKey : Option (List Value) := none
  hasOnSuccess : Bool := false
  hasOnError : Bool := false
  extra : List (String × Value) := []

/-- Result object of `queryOptions` minus the `queryFn` closure (whose
behaviour is `queryFnRun` below): the object literal
`{ queryFn, queryKey: queryKey(data), ...options }` - since `options` is
spread last, a caller-supplied `queryKey` displaces the generated one, the
hooks and all remaining caller fields pass through. -/
structure BuiltQueryOptions : Type where
  queryKey : List Value
  hasOnSuccess : Bool
  hasOnError : Bool
  extra : List (String × Value)

/-- The handle's attached `queryOptions` adapter (field content; the
generated `queryFn` closure's behaviour is `queryFnRun`). -/
def Endpoint.queryOptions (ep : Endpoint) (opts : Option ReactQueryOptions) :
    BuiltQueryOptions :=
  let o := opts.getD {}
  { queryKey :=
      match o.queryKey with
      | some k => k
      | none => ApiClient.queryKey ep.uuid o.data
    hasOnSuccess := o.hasOnSuccess
    hasOnError := o.hasOnError
    extra := o.extra }

/-- One invocation of a caller-supplied hook, with its arguments. -/
inductive HookEvent : Type where
  | calledOnSuccess (value : Value) (payload : Value) : HookEvent
  | calledOnError (error : ApiError) (payload : Value) : HookEvent
deriving Repr

/-- Behaviour of the generated `queryFn` closure: run `call` on the
captured `data`; on success invoke `onSuccess` (when supplied) with the
response body and the payload and resolve to the body only; on failure
invoke `onError` (when supplied) with the error and the payload and
re-raise the error unchanged. -/
def queryFnRun (ep : Endpoint) (o : ReactQueryOptions) (t : Transport) :
    Except ApiError Value × List HookEvent :=
  match (ApiClient.call ep.config t o.data).1 with
  | .ok response =>
      (.ok response.data,
        if o.hasOnSuccess then [.calledOnSuccess response.data o.data] else [])
  | .error e =>
      (.error e,
        if o.hasOnError then [.calledOnError e o.data] else [])

/-- Caller argument of `mutationOptions`: an optional caller-supplied
`mutationKey` override plus the remaining fields.  `mutationFn` is absent
by construction: the TypeScript type `Omit`s it. -/
structure ReactMutationOptions : Type where
  mutationKey : Option (List Value) := none
  extra : List (String × Value) := []

/-- Result object of `mutationOptions` minus the `mutationFn` closure
(whose behaviour is `mutationFnRun` below): the object literal
`{ mutationFn, mutationKey: mutationKey(), ...options }` with
spread-last-wins semantics. -/
structure BuiltMutationOptions : Type where
  mutationKey : List Value
  extra : List (String × Value)

/-- The handle's attached `mutationOptions` adapter (field content). -/
def Endpoint.mutationOptions (ep : Endpoint) (opts : Option ReactMutationOptions) :
    BuiltMutationOptions :=
  let o := opts.getD {}
  { mutationKey :=
      match o.mutationKey with
      | some k => k
      | none => ApiClient.mutationKey ep.uuid
    extra := o.extra }

/-- Behaviour of the generated `mutationFn` closure: run `call` on the
per-invocation payload and resolve to the response body only. -/
def mutationFnRun (ep : Endpoint) (t : Transport) (data : Value) :
    Except ApiError Value :=
  match (ApiClient.call ep.config t data).1 with
  | .ok response => .ok response.data
  | .error e => .error e

/-- Trace contribution of the input-schema parse. -/
def inputEvents (cfg : EndpointConfig) (data : Value) : List CallEvent :=
  match cfg.inputSchema with
  | some _ => [CallEvent.parseInput (data.getField "input")]
  | none => []

/-- Trace contribution of the variables-schema parse. -/
def variablesEvents (cfg : EndpointConfig) (data : Value) : List CallEvent :=
  match cfg.variablesSchema with
  | some _ => [CallEvent.parseVariables (data.getField "variables")]
  | none => []

/-- Trace contribution of the dispatch: nothing for an unsupported method
(the throw precedes any transport use), the transport call alone when the
transport errors, and the transport call followed by the output parse on a
successful transport response. -/
def dispatchEvents (cfg : EndpointConfig) (t : Transport) (data : Value) :
    List CallEvent :=
  match mkTransportCall cfg.method (resolveUrl cfg data) (resolveAxiosOptions cfg data) with
  | none => []
  | some tc =>
      match t tc with
      | .error _ => [CallEvent.transport tc]
      | .ok response => [CallEvent.transport tc, CallEvent.parseOutput response.data]

/-! Helper lemmas about the shape of call traces. -/

theorem transport_notMem_optionEvents (cfg : EndpointConfig) (tc : TransportCall) :
    CallEvent.transport tc ∉ optionEvents cfg := by
  unfold optionEvents
  cases cfg.axiosOptions <;> simp

theorem transport_notMem_pathEvents (cfg : EndpointConfig) (tc : TransportCall) :
    CallEvent.transport tc ∉ pathEvents cfg := by
  unfold pathEvents
  cases cfg.path <;> simp

theorem afterValidation_events (cfg : EndpointConfig) (t : Transport) (data : Value) :
    (callAfterValidation cfg t data).2 =
      optionEvents cfg ++ pathEvents cfg ++ dispatchEvents cfg t data := by
  rcases hm : mkTransportCall cfg.method (resolveUrl cfg data) (resolveAxiosOptions cfg data)
    with _ | tc
  · simp [callAfterValidation, dispatchEvents, hm]
  · rcases ht : t tc with msg | response
    · simp [callAfterValidation, dispatchEvents, hm, ht]
    · cases hp : cfg.outputSchema.pred response.data <;>
        simp [callAfterValidation, dispatchEvents, hm, ht, hp]

theorem afterValidation_fst_ok (cfg : EndpointConfig) (t : Transport) (data : Value)
    (resp : AxiosResponse) (h : (callAfterValidation cfg t data).1 = .ok resp) :
    cfg.outputSchema.pred resp.data = true := by
  rcases hm : mkTransportCall cfg.method (resolveUrl cfg data) (resolveAxiosOptions cfg data)
    with _ | tc
  · simp [callAfterValidation, hm] at h
  · rcases ht : t tc with msg | response
    · simp [callAfterValidation, hm, ht] at h
    · cases hp : cfg.outputSchema.pred response.data
      · simp [callAfterValidation, hm, ht, hp] at h
      · simp [callAfterValidation, hm, ht, hp] at h
        rw [← h]
        exact hp

theorem afterValidation_transport_mem (cfg : EndpointConfig) (t : Transport)
    (data : Value) (tc : TransportCall)
    (h : CallEvent.transport tc ∈ (callAfterValidation cfg t data).2) :
    mkTransportCall cfg.method (resolveUrl cfg data) (resolveAxiosOptions cfg data) =
      some tc := by
  have hopt := transport_notMem_optionEvents cfg tc
  have hpath := transport_notMem_pathEvents cfg tc
  rw [afterValidation_events] at h
  rcases hm : mkTransportCall cfg.method (resolveUrl cfg data) (resolveAxiosOptions cfg data)
    with _ | tc2
  · simp [dispatchEvents, hm, List.mem_append] at h
    rcases h with h | h
    · exact absurd h hopt
    · exact absurd h hpath
  · rcases ht : t tc2 with msg | response
    · simp [dispatchEvents, hm, ht, List.mem_append] at h
      rcases h with h | h | h
      · exact absurd h hopt
      · exact absurd h hpath
      · rw [h]
    · simp [dispatchEvents, hm, ht, List.mem_append] at h
      rcases h with h | h | h
      · exact absurd h hopt
      · exact absurd h hpath
      · rw [h]

theorem afterValidation_bad_output (cfg : EndpointConfig) (t : Transport)
    (data : Value) (tc : TransportCall) (resp : AxiosResponse)
    (hm : mkTransportCall cfg.method (resolveUrl cfg data) (resolveAxiosOptions cfg data) =
      some tc)
    (hok : t tc = .ok resp)
    (hbad : cfg.outputSchema.pred resp.data = false) :
    (callAfterValidation cfg t data).1 = .error (.zod resp.data) := by
  simp [callAfterValidation, hm, hok, hbad]

theorem transport_notMem_inputEvents (cfg : EndpointConfig) (data : Value)
    (tc : TransportCall) : CallEvent.transport tc ∉ inputEvents cfg data := by
  unfold inputEvents
  cases cfg.inputSchema <;> simp

theorem transport_notMem_variablesEvents (cfg : EndpointConfig) (data : Value)
    (tc : TransportCall) : CallEvent.transport tc ∉ variablesEvents cfg data := by
  unfold variablesEvents
  cases cfg.variablesSchema <;> simp

theorem call_eq_of_bad_input (cfg : EndpointConfig) (t : Transport) (opts : Value)
    (s : Schema) (hs : cfg.inputSchema = some s)
    (hbad : s.pred ((normData opts).getField "input") = false) :
    call cfg t opts =
      (.error (.zod ((normData opts).getField "input")),
        [CallEvent.parseInput ((normData opts).getField "input")]) := by
  simp [call, hs, hbad]

theorem call_eq_of_bad_variables (cfg : EndpointConfig) (t : Transport) (opts : Value)
    (s : Schema)
    (hin : ∀ s2, cfg.inputSchema = some s2 →
      s2.pred ((normData opts).getField "input") = true)
    (hs : cfg.variablesSchema = some s)
    (hbad : s.pred ((normData opts).getField "variables") = false) :
    call cfg t opts =
      (.error (.zod ((normData opts).getField "variables")),
        inputEvents cfg (normData opts) ++
          [CallEvent.parseVariables ((normData opts).getField "variables")]) := by
  rcases hi : cfg.inputSchema with _ | s2
  · simp [call, callAfterInput, inputEvents, hi, hs, hbad]
  · simp [call, callAfterInput, inputEvents, hi, hs, hbad, hin s2 hi]

theorem call_eq_of_valid (cfg : EndpointConfig) (t : Transport) (opts : Value)
    (hin : ∀ s, cfg.inputSchema = some s →
      s.pred ((normData opts).getField "input") = true)
    (hvar : ∀ s, cfg.variablesSchema = some s →
      s.pred ((normData opts).getField "variables") = true) :
    call cfg t opts =
      ((callAfterValidation cfg t (normData opts)).1,
        inputEvents cfg (normData opts) ++ variablesEvents cfg (normData opts) ++
          (callAfterValidation cfg t (normData opts)).2) := by
  rcases hi : cfg.inputSchema with _ | s
  · rcases hv : cfg.variablesSchema with _ | s2
    · simp [call, callAfterInput, inputEvents, variablesEvents, hi, hv]
    · simp [call, callAfterInput, inputEvents, variablesEvents, hi, hv, hvar s2 hv]
  · rcases hv : cfg.variablesSchema with _ | s2
    · simp [call, callAfterInput, inputEvents, variablesEvents, hi, hv, hin s hi]
    · simp [call, callAfterInput, inputEvents, variablesEvents, hi, hv, hin s hi,
        hvar s2 hv]

theorem call_validation_cases (cfg : EndpointConfig) (opts : Value) :
    (∃ s, cfg.inputSchema = some s ∧
      s.pred ((normData opts).getField "input") = false) ∨
    ((∀ s, cfg.inputSchema = some s →
        s.pred ((normData opts).getField "input") = true) ∧
      ∃ s, cfg.variablesSchema = some s ∧
        s.pred ((normData opts).getField "variables") = false) ∨
    ((∀ s, cfg.inputSchema = some s →
        s.pred ((normData opts).getField "input") = true) ∧
      (∀ s, cfg.variablesSchema = some s →
        s.pred ((normData opts).getField "variables") = true)) := by
  by_cases hinOk : ∀ s, cfg.inputSchema = some s →
      s.pred ((normData opts).getField "input") = true
  · by_cases hvarOk : ∀ s, cfg.variablesSchema = some s →
        s.pred ((normData opts).getField "variables") = true
    · exact Or.inr (Or.inr ⟨hinOk, hvarOk⟩)
    · push_neg at hvarOk
      obtain ⟨s, hs, hbad⟩ := hvarOk
      exact Or.inr (Or.inl ⟨hinOk, s, hs, by simpa using hbad⟩)
  · push_neg at hinOk
    obtain ⟨s, hs, hbad⟩ := hinOk
    exact Or.inl ⟨s, hs, by simpa using hbad⟩

theorem call_fst_ok (cfg : EndpointConfig) (t : Transport) (opts : Value)
    (resp : AxiosResponse) (h : (call cfg t opts).1 = .ok resp) :
    cfg.outputSchema.pred resp.data = true := by
  rcases call_validation_cases cfg opts with ⟨s, hs, hbad⟩ | ⟨hinOk, s, hs, hbad⟩ |
    ⟨hinOk, hvarOk⟩
  · rw [call_eq_of_bad_input cfg t opts s hs hbad] at h
    simp at h
  · rw [call_eq_of_bad_variables cfg t opts s hinOk hs hbad] at h
    simp at h
  · rw [call_eq_of_valid cfg t opts hinOk hvarOk] at h
    exact afterValidation_fst_ok cfg t (normData opts) resp h

theorem call_transport_mem (cfg : EndpointConfig) (t : Transport) (opts : Value)
    (tc : TransportCall) (h : CallEvent.transport tc ∈ (call cfg t opts).2) :
    mkTransportCall cfg.method (resolveUrl cfg (normData opts))
        (resolveAxiosOptions cfg (normData opts)) = some tc ∧
      (∀ s, cfg.inputSchema = some s →
        s.pred ((normData opts).getField "input") = true) ∧
      (∀ s, cfg.variablesSchema = some s →
        s.pred ((normData opts).getField "variables") = true) := by
  rcases call_validation_cases cfg opts with ⟨s, hs, hbad⟩ | ⟨hinOk, s, hs, hbad⟩ |
    ⟨hinOk, hvarOk⟩
  · rw [call_eq_of_bad_input cfg t opts s hs hbad] at h
    simp at h
  · rw [call_eq_of_bad_variables cfg t opts s hinOk hs hbad] at h
    have hi := transport_notMem_inputEvents cfg (normData opts) tc
    simp [List.mem_append] at h
    exact absurd h hi
  · rw [call_eq_of_valid cfg t opts hinOk hvarOk] at h
    have hi := transport_notMem_inputEvents cfg (normData opts) tc
    have hv := transport_notMem_variablesEvents cfg (normData opts) tc
    simp [List.mem_append] at h
    rcases h with h | h | h
    · exact absurd h hi
    · exact absurd h hv
    · exact ⟨afterValidation_transport_mem cfg t (normData opts) tc h, hinOk, hvarOk⟩

theorem call_bad_output (cfg : EndpointConfig) (t : Transport) (opts : Value)
    (tc : TransportCall) (resp : AxiosResponse)
    (hmem : CallEvent.transport tc ∈ (call cfg t opts).2)
    (hok : t tc = .ok resp)
    (hbad : cfg.outputSchema.pred resp.data = false) :
    (call cfg t opts).1 = .error (.zod resp.data) := by
  obtain ⟨hm, hinOk, hvarOk⟩ := call_transport_mem cfg t opts tc hmem
  rw [call_eq_of_valid cfg t opts hinOk hvarOk]
  exact afterValidation_bad_output cfg t (normData opts) tc resp hm hok hbad

/-- A schema accepting exactly numbers, used for concrete checks. -/
def schemaNum : Schema :=
  ⟨fun v => match v with | .num _ => true | _ => false⟩

/-- A schema accepting exactly strings, used for concrete checks. -/
def schemaStr : Schema :=
  ⟨fun v => match v with | .str _ => true | _ => false⟩

/-- C1: for every built endpoint and every transport call that succeeds, the
response body is validated against the output schema before the value is
handed to any caller path (direct call, query adapter, mutation adapter); a
response violating that schema raises a validation error even though the
transport call succeeded. -/
theorem outputValidation_before_delivery (ep : Endpoint) (t : Transport) :
    (∀ opts resp, (ep.call t opts).1 = .ok resp →
      ep.config.outputSchema.pred resp.data = true)
    ∧ (∀ opts tc resp, CallEvent.transport tc ∈ (ep.call t opts).2 →
        t tc = .ok resp → ep.config.outputSchema.pred resp.data = false →
        (ep.call t opts).1 = .error (.zod resp.data))
    ∧ (∀ opts tc resp, CallEvent.transport tc ∈ (ep.call t opts).2 →
        t tc = .ok resp →
        CallEvent.parseOutput resp.data ∈ (ep.call t opts).2)
    ∧ (∀ o v evs, queryFnRun ep o t = (.ok v, evs) →
        ep.config.outputSchema.pred v = true)
    ∧ (∀ d v, mutationFnRun ep t d = .ok v →
        ep.config.outputSchema.pred v = true) := by
  refine ⟨?_, ?_, ?_, ?_, ?_⟩
  · intro opts resp h
    exact call_fst_ok ep.config t opts resp h
  · intro opts tc resp hmem hok hbad
    exact call_bad_output ep.config t opts tc resp hmem hok hbad
  · intro opts tc resp hmem hok
    obtain ⟨hm, hinOk, hvarOk⟩ := call_transport_mem ep.config t opts tc hmem
    show CallEvent.parseOutput resp.data ∈ (call ep.config t opts).2
    have h2 : (call ep.config t opts).2 =
        inputEvents ep.config (normData opts) ++
          variablesEvents ep.config (normData opts) ++
          (callAfterValidation ep.config t (normData opts)).2 := by
      rw [call_eq_of_valid ep.config t opts hinOk hvarOk]
    rw [h2, afterValidation_events]
    simp [List.mem_append, dispatchEvents, hm, hok]
  · intro o v evs h
    unfold queryFnRun at h
    rcases hc : (call ep.config t o.data).1 with e | response
    · rw [hc] at h
      simp at h
    · rw [hc] at h
      simp only [Prod.mk.injEq, Except.ok.injEq] at h
      rw [← h.1]
      exact call_fst_ok ep.config t o.data response hc
  · intro d v h
    unfold mutationFnRun at h
    rcases hc : (call ep.config t d).1 with e | response
    · rw [hc] at h
      simp at h
    · rw [hc] at h
      simp only [Except.ok.injEq] at h
      rw [← h]
      exact call_fst_ok ep.config t d response hc

/-- Concrete endpoint for checking C1: GET, literal path, numeric output. -/
def cfgC1 : EndpointConfig :=
  { method := .GET, path := .inl "/items", outputSchema := schemaNum }

/-- Concrete endpoint handle built from `cfgC1`. -/
def epC1 : Endpoint := (createEndpoint cfgC1 0).1

/-- A transport whose response body violates `schemaNum`. -/
def tC1 : Transport := fun _ => .ok ⟨Value.str "bad", 200, Value.undefined⟩

theorem outputValidation_before_delivery_witness :
    (epC1.call tC1 Value.undefined).1 = .error (.zod (Value.str "bad")) :=
  (outputValidation_before_delivery epC1 tC1).2.1 Value.undefined
    (.get "/items" Value.undefined) ⟨Value.str "bad", 200, Value.undefined⟩
    (List.Mem.head _) rfl rfl

/-- C2: for every descriptor that declares an input schema (or a variables
schema) and every payload whose input (or variables) portion fails that
schema, invoking the built callable raises a validation error and the
transport collaborator is never invoked: no transport event occurs and the
outcome does not depend on the transport at all. -/
theorem inputValidation_blocks_transport (ep : Endpoint) (t : Transport) (opts : Value) :
    (∀ s, ep.config.inputSchema = some s →
      s.pred ((normData opts).getField "input") = false →
      (ep.call t opts).1 = .error (.zod ((normData opts).getField "input"))
      ∧ (∀ tc, CallEvent.transport tc ∉ (ep.call t opts).2)
      ∧ (∀ t2, ep.call t2 opts = ep.call t opts))
    ∧ (∀ s, ep.config.variablesSchema = some s →
      (∀ s2, ep.config.inputSchema = some s2 →
        s2.pred ((normData opts).getField "input") = true) →
      s.pred ((normData opts).getField "variables") = false →
      (ep.call t opts).1 = .error (.zod ((normData opts).getField "variables"))
      ∧ (∀ tc, CallEvent.transport tc ∉ (ep.call t opts).2)
      ∧ (∀ t2, ep.call t2 opts = ep.call t opts)) := by
  constructor
  · intro s hs hbad
    have h1 := call_eq_of_bad_input ep.config t opts s hs hbad
    refine ⟨?_, ?_, ?_⟩
    · simp [Endpoint.call, h1]
    · intro tc
      simp [Endpoint.call, h1]
    · intro t2
      simp [Endpoint.call, h1, call_eq_of_bad_input ep.config t2 opts s hs hbad]
  · intro s hs hin hbad
    have h1 := call_eq_of_bad_variables ep.config t opts s hin hs hbad
    have hi := transport_notMem_inputEvents ep.config (normData opts)
    refine ⟨?_, ?_, ?_⟩
    · simp [Endpoint.call, h1]
    · intro tc
      simp [Endpoint.call, h1, List.mem_append, hi tc]
    · intro t2
      simp [Endpoint.call, h1, call_eq_of_bad_variables ep.config t2 opts s hin hs hbad]

/-- Concrete endpoint for checking C2: declares a numeric input schema. -/
def cfgC2 : EndpointConfig :=
  { method := .GET, path := .inl "/items", inputSchema := some schemaNum,
    outputSchema := schemaNum }

/-- Concrete endpoint handle built from `cfgC2`. -/
def epC2 : Endpoint := (createEndpoint cfgC2 0).1

/-- A transport that would answer successfully, were it ever reached. -/
def tC2 : Transport := fun _ => .ok ⟨Value.num 1, 200, Value.undefined⟩

/-- A payload whose `input` portion is a string, violating `schemaNum`. -/
def payloadC2 : Value := Value.obj [("input", Value.str "x")]

theorem inputValidation_blocks_transport_witness :
    (epC2.call tC2 payloadC2).1 = .error (.zod (Value.str "x")) :=
  ((inputValidation_blocks_transport epC2 tC2 payloadC2).1 schemaNum rfl rfl).1

/-- Concrete endpoint for checking C3: declares an input schema. -/
def cfgC3 : EndpointConfig :=
  { method := .GET, path := .inl "/items", inputSchema := some schemaNum,
    outputSchema := schemaNum }

/-- Concrete endpoint handle built from `cfgC3`. -/
def epC3 : Endpoint := (createEndpoint cfgC3 0).1

/-- C3 counterexample: the descriptor declares an input schema, yet
`queryKey` applied to the falsy payload `0` omits the payload segment -
the generator tests the truthiness of its argument, never the descriptor,
so "payload segment iff an input/variables schema is declared" fails. -/
theorem queryKey_schema_claim_counterexample :
    cfgC3.inputSchema.isSome = true
    ∧ epC3.queryKey (Value.num 0) =
        [Value.str "api-call", Value.str "query", Value.uuid 0]
    ∧ epC3.queryKey (Value.num 0) ≠
        [Value.str "api-call", Value.str "query", Value.uuid 0, Value.num 0] :=
  ⟨rfl, rfl, by simp [Endpoint.queryKey, queryKey, Value.truthy]⟩

/-- C3 amended: `queryKey(payload)` always begins with the fixed pair of
discriminator tags and the invocation identity; the payload segment is
appended exactly when the payload argument is truthy - whether the
descriptor declares an input/variables schema is not consulted (in
particular a call with no payload, hence `undefined`, omits the segment). -/
theorem queryKey_shape (ep : Endpoint) (d : Value) :
    (d.truthy = true →
      ep.queryKey d =
        [Value.str "api-call", Value.str "query", Value.uuid ep.uuid, d])
    ∧ (d.truthy = false →
      ep.queryKey d =
        [Value.str "api-call", Value.str "query", Value.uuid ep.uuid]) := by
  constructor <;> intro h <;> simp [Endpoint.queryKey, queryKey, h]

theorem queryKey_shape_witness :
    (Value.num 7).truthy = true
    ∧ Value.undefined.truthy = false
    ∧ epC3.queryKey (Value.num 7) =
        [Value.str "api-call", Value.str "query", Value.uuid 0, Value.num 7]
    ∧ epC3.queryKey Value.undefined =
        [Value.str "api-call", Value.str "query", Value.uuid 0] :=
  ⟨rfl, rfl, (queryKey_shape epC3 (Value.num 7)).1 rfl,
    (queryKey_shape epC3 Value.undefined).2 rfl⟩

/-- C4: the transport dispatch shape is method-specific: GET and DELETE
dispatch with `(url, options)`; POST, PUT and PATCH dispatch with
`(url, body, options)` where the body is the options object's `data`
field, passed as the second positional argument. -/
theorem dispatch_shape (ep : Endpoint) (t : Transport) (opts : Value)
    (tc : TransportCall)
    (hmem : CallEvent.transport tc ∈ (ep.call t opts).2) :
    (ep.config.method = .GET →
      tc = .get (resolveUrl ep.config (normData opts))
        (resolveAxiosOptions ep.config (normData opts)))
    ∧ (ep.config.method = .DELETE →
      tc = .delete (resolveUrl ep.config (normData opts))
        (resolveAxiosOptions ep.config (normData opts)))
    ∧ (ep.config.method = .POST →
      tc = .post (resolveUrl ep.config (normData opts))
        ((resolveAxiosOptions ep.config (normData opts)).getField "data")
        (resolveAxiosOptions ep.config (normData opts)))
    ∧ (ep.config.method = .PUT →
      tc = .put (resolveUrl ep.config (normData opts))
        ((resolveAxiosOptions ep.config (normData opts)).getField "data")
        (resolveAxiosOptions ep.config (normData opts)))
    ∧ (ep.config.method = .PATCH →
      tc = .patch (resolveUrl ep.config (normData opts))
        ((resolveAxiosOptions ep.config (normData opts)).getField "data")
        (resolveAxiosOptions ep.config (normData opts))) := by
  obtain ⟨hm, -, -⟩ := call_transport_mem ep.config t opts tc hmem
  refine ⟨?_, ?_, ?_, ?_, ?_⟩ <;> intro hmeth <;>
  · rw [hmeth] at hm
    simp [mkTransportCall] at hm
    exact hm.symm

/-- Concrete endpoint for checking C4: POST with a body-bearing
option-deriving function. -/
def cfgC4 : EndpointConfig :=
  { method := .POST, path := .inl "/items",
    axiosOptions := some (fun _ => Value.obj [("data", Value.num 5)]),
    outputSchema := schemaNum }

/-- Concrete endpoint handle built from `cfgC4`. -/
def epC4 : Endpoint := (createEndpoint cfgC4 0).1

/-- A transport answering with a valid numeric body. -/
def tC4 : Transport := fun _ => .ok ⟨Value.num 1, 200, Value.undefined⟩

/-- The dispatch `cfgC4` must produce: the `data` field of the derived
options as second positional argument. -/
def tcC4 : TransportCall :=
  .post "/items" (Value.num 5) (Value.obj [("data", Value.num 5)])

theorem dispatch_shape_witness :
    tcC4 = .post (resolveUrl epC4.config (normData Value.undefined))
      ((resolveAxiosOptions epC4.config (normData Value.undefined)).getField "data")
      (resolveAxiosOptions epC4.config (normData Value.undefined)) :=
  (dispatch_shape epC4 tC4 Value.undefined tcC4
    (List.Mem.tail _ (List.Mem.head _))).2.2.1 rfl

/-- Concrete descriptor for checking C5: an out-of-contract method value. -/
def cfgC5 : EndpointConfig :=
  { method := .other "FOO", path := .inl "/x", outputSchema := schemaNum }

/-- A transport that would answer successfully, were it ever reached. -/
def tC5 : Transport := fun _ => .ok ⟨Value.num 1, 200, Value.undefined⟩

/-- C5 counterexample: `createEndpoint` performs no method check - the
descriptor with method "FOO" builds a fully functional handle (its keys
work), and the failure surfaces only when the callable runs, as the
runtime unsupported-method error.  Construction-time rejection, as the
claim states it, does not happen. -/
theorem unsupportedMethod_counterexample :
    (createEndpoint cfgC5 0).1.config.method = .other "FOO"
    ∧ (createEndpoint cfgC5 0).1.mutationKey =
        [Value.str "api-call", Value.str "mutation", Value.uuid 0]
    ∧ ((createEndpoint cfgC5 0).1.call tC5 Value.undefined).1 =
        .error (.unsupported "API SDK: Unsupported method: FOO") :=
  ⟨rfl, rfl, rfl⟩

/-- C5 amended: an unsupported method value is not rejected at
construction time: `createEndpoint` returns the handle unchanged, and the
failure is deferred to runtime - every invocation whose validations pass
raises the unsupported-method error after option/path resolution, and the
transport is never dispatched. -/
theorem unsupportedMethod_deferred (cfg : EndpointConfig) (supply : Nat)
    (t : Transport) (opts : Value) (name : String)
    (hm : cfg.method = .other name)
    (hin : ∀ s, cfg.inputSchema = some s →
      s.pred ((normData opts).getField "input") = true)
    (hvar : ∀ s, cfg.variablesSchema = some s →
      s.pred ((normData opts).getField "variables") = true) :
    (createEndpoint cfg supply).1.config = cfg
    ∧ ((createEndpoint cfg supply).1.call t opts).1 =
        .error (.unsupported ("API SDK: Unsupported method: " ++ name))
    ∧ (∀ tc, CallEvent.transport tc ∉ ((createEndpoint cfg supply).1.call t opts).2) := by
  refine ⟨rfl, ?_, ?_⟩
  · show (call cfg t opts).1 = _
    rw [call_eq_of_valid cfg t opts hin hvar]
    simp [callAfterValidation, mkTransportCall, hm, Method.text]
  · intro tc
    show CallEvent.transport tc ∉ (call cfg t opts).2
    rw [call_eq_of_valid cfg t opts hin hvar]
    simp only [List.mem_append]
    rw [afterValidation_events]
    simp [List.mem_append, dispatchEvents, mkTransportCall, hm,
      transport_notMem_inputEvents cfg (normData opts) tc,
      transport_notMem_variablesEvents cfg (normData opts) tc,
      transport_notMem_optionEvents cfg tc,
      transport_notMem_pathEvents cfg tc]

theorem unsupportedMethod_deferred_witness :
    ((createEndpoint cfgC5 0).1.call tC5 Value.undefined).1 =
      .error (.unsupported ("API SDK: Unsupported method: " ++ "FOO")) :=
  (unsupportedMethod_deferred cfgC5 0 tC5 Value.undefined "FOO" rfl
    (fun _ hs => nomatch hs) (fun _ hs => nomatch hs)).2.1

/-- C6 amended: the call algorithm performs its steps in this order:
(1) validate input when an input schema is present, (2) validate variables
when a variables schema is present, (3) resolve additional transport
options via the descriptor's option-deriving function when present,
(4) resolve the request path (invoking the path function when the path is
a function), then (5) dispatch to the transport and parse the response.
The claim as frozen states path resolution before option resolution; the
implementation resolves the options first. -/
theorem call_step_order (ep : Endpoint) (t : Transport) (opts : Value)
    (hin : ∀ s, ep.config.inputSchema = some s →
      s.pred ((normData opts).getField "input") = true)
    (hvar : ∀ s, ep.config.variablesSchema = some s →
      s.pred ((normData opts).getField "variables") = true) :
    (ep.call t opts).2 =
      inputEvents ep.config (normData opts)
        ++ variablesEvents ep.config (normData opts)
        ++ optionEvents ep.config
        ++ pathEvents ep.config
        ++ dispatchEvents ep.config t (normData opts) := by
  show (call ep.config t opts).2 = _
  rw [call_eq_of_valid ep.config t opts hin hvar]
  rw [show (((callAfterValidation ep.config t (normData opts)).1,
      inputEvents ep.config (normData opts) ++ variablesEvents ep.config (normData opts) ++
        (callAfterValidation ep.config t (normData opts)).2)).2 =
      inputEvents ep.config (normData opts) ++ variablesEvents ep.config (normData opts) ++
        (callAfterValidation ep.config t (normData opts)).2 from rfl]
  rw [afterValidation_events]
  simp [List.append_assoc]

/-- Concrete endpoint for checking C6: both a path function and an
option-deriving function are declared, so both resolution steps appear in
the trace. -/
def cfgC6 : EndpointConfig :=
  { method := .GET, path := .inr (fun _ => "/x"),
    axiosOptions := some (fun _ => Value.obj []),
    outputSchema := schemaNum }

/-- Concrete endpoint handle built from `cfgC6`. -/
def epC6 : Endpoint := (createEndpoint cfgC6 0).1

/-- A transport answering with a valid numeric body. -/
def tC6 : Transport := fun _ => .ok ⟨Value.num 1, 200, Value.undefined⟩

/-- C6 counterexample: on an endpoint declaring both caller-supplied
functions, the trace shows the option-deriving function invoked before the
path function, refuting the claimed order (path at step 3, options at
step 4). -/
theorem call_step_order_counterexample :
    (epC6.call tC6 Value.undefined).2 =
      [CallEvent.resolveAxiosOptions, CallEvent.resolvePath,
        CallEvent.transport (.get "/x" (Value.obj [])),
        CallEvent.parseOutput (Value.num 1)]
    ∧ (epC6.call tC6 Value.undefined).2 ≠
      [CallEvent.resolvePath, CallEvent.resolveAxiosOptions,
        CallEvent.transport (.get "/x" (Value.obj [])),
        CallEvent.parseOutput (Value.num 1)] := by
  have he : (epC6.call tC6 Value.undefined).2 =
      [CallEvent.resolveAxiosOptions, CallEvent.resolvePath,
        CallEvent.transport (.get "/x" (Value.obj [])),
        CallEvent.parseOutput (Value.num 1)] := rfl
  refine ⟨he, ?_⟩
  rw [he]
  simp

theorem call_step_order_witness :
    (epC6.call tC6 Value.undefined).2 =
      inputEvents epC6.config (normData Value.undefined)
        ++ variablesEvents epC6.config (normData Value.undefined)
        ++ optionEvents epC6.config
        ++ pathEvents epC6.config
        ++ dispatchEvents epC6.config tC6 (normData Value.undefined) :=
  call_step_order epC6 tC6 Value.undefined
    (fun _ hs => nomatch hs) (fun _ hs => nomatch hs)

/-- Concrete endpoint for checking C7. -/
def cfgC7 : EndpointConfig :=
  { method := .GET, path := .inl "/items", outputSchema := schemaNum }

/-- Concrete endpoint handle built from `cfgC7`. -/
def epC7 : Endpoint := (createEndpoint cfgC7 0).1

/-- Caller options supplying their own `queryKey`. -/
def optsC7 : ReactQueryOptions := { queryKey := some [Value.str "custom"] }

/-- C7 counterexample: the option types deliberately re-allow a
caller-supplied `queryKey`, and since the caller options are spread last,
it displaces the generated key - the generated field is not preserved. -/
theorem adapter_options_merge_counterexample :
    (epC7.queryOptions (some optsC7)).queryKey = [Value.str "custom"]
    ∧ (epC7.queryOptions (some optsC7)).queryKey ≠ epC7.queryKey Value.undefined := by
  refine ⟨rfl, ?_⟩
  have h1 : (epC7.queryOptions (some optsC7)).queryKey = [Value.str "custom"] := rfl
  have h2 : epC7.queryKey Value.undefined =
      [Value.str "api-call", Value.str "query", Value.uuid 0] := rfl
  rw [h1, h2]
  simp

/-- C7 amended: `queryOptions` / `mutationOptions` carry the generated
`queryFn` / `mutationFn` (which the option types exclude, so they cannot
be displaced) and shallow-merge the caller options spread-last: every
caller-supplied field takes precedence, including a caller-supplied
`queryKey` / `mutationKey`, which displaces the generated key; the
generated key is used only when the caller supplies none. -/
theorem adapter_options_merge (ep : Endpoint) (o : ReactQueryOptions)
    (m : ReactMutationOptions) :
    ((o.queryKey = none →
        (ep.queryOptions (some o)).queryKey = ep.queryKey o.data)
      ∧ (∀ k, o.queryKey = some k → (ep.queryOptions (some o)).queryKey = k)
      ∧ (ep.queryOptions (some o)).extra = o.extra
      ∧ (ep.queryOptions (some o)).hasOnSuccess = o.hasOnSuccess
      ∧ (ep.queryOptions (some o)).hasOnError = o.hasOnError)
    ∧ ((m.mutationKey = none →
        (ep.mutationOptions (some m)).mutationKey = ep.mutationKey)
      ∧ (∀ k, m.mutationKey = some k →
        (ep.mutationOptions (some m)).mutationKey = k)
      ∧ (ep.mutationOptions (some m)).extra = m.extra) := by
  refine ⟨⟨?_, ?_, rfl, rfl, rfl⟩, ?_, ?_, rfl⟩
  · intro h
    simp [Endpoint.queryOptions, h, Endpoint.queryKey]
  · intro k h
    simp [Endpoint.queryOptions, h]
  · intro h
    simp [Endpoint.mutationOptions, h, Endpoint.mutationKey]
  · intro k h
    simp [Endpoint.mutationOptions, h]

theorem adapter_options_merge_witness :
    (epC7.queryOptions (some optsC7)).queryKey = [Value.str "custom"]
    ∧ (epC7.mutationOptions (some {})).mutationKey = epC7.mutationKey :=
  ⟨((adapter_options_merge epC7 optsC7 {}).1.2.1 [Value.str "custom"] rfl),
    ((adapter_options_merge epC7 optsC7 {}).2.1 rfl)⟩

/-- Concrete endpoint handle for checking C8. -/
def epC8 : Endpoint := (createEndpoint cfgC7 5).1

/-- C8: `mutationKey()` is the fixed pair of mutation discriminator tags
plus the invocation identity; it takes no payload, so it is invariant
across payloads, and every segment is a tag or the identity - no payload
value is ever part of it. -/
theorem mutationKey_fixed (ep : Endpoint) :
    ep.mutationKey =
      [Value.str "api-call", Value.str "mutation", Value.uuid ep.uuid]
    ∧ (∀ d : Value, d ∈ ep.mutationKey →
        d = Value.str "api-call" ∨ d = Value.str "mutation" ∨
          d = Value.uuid ep.uuid) := by
  refine ⟨rfl, ?_⟩
  intro d hd
  simp [Endpoint.mutationKey, mutationKey] at hd
  rcases hd with h | h | h
  · exact Or.inl h
  · exact Or.inr (Or.inl h)
  · exact Or.inr (Or.inr h)

theorem mutationKey_fixed_witness :
    Value.str "mutation" = Value.str "api-call" ∨
    Value.str "mutation" = Value.str "mutation" ∨
    Value.str "mutation" = Value.uuid epC8.uuid :=
  (mutationKey_fixed epC8).2 (Value.str "mutation")
    (List.Mem.tail _ (List.Mem.head _))

/-- C9: two endpoints built in sequence from the identical descriptor
draw different invocation identities, so their uuids, mutation keys and
query keys (on any common payload) all differ. -/
theorem distinct_identities (cfg : EndpointConfig) (supply : Nat) :
    (createEndpoint cfg supply).1.uuid ≠
      (createEndpoint cfg (createEndpoint cfg supply).2).1.uuid
    ∧ (createEndpoint cfg supply).1.mutationKey ≠
      (createEndpoint cfg (createEndpoint cfg supply).2).1.mutationKey
    ∧ ∀ d, (createEndpoint cfg supply).1.queryKey d ≠
        (createEndpoint cfg (createEndpoint cfg supply).2).1.queryKey d := by
  refine ⟨?_, ?_, ?_⟩
  · show supply ≠ supply + 1
    omega
  · show mutationKey supply ≠ mutationKey (supply + 1)
    simp [mutationKey]
  · intro d
    show queryKey supply d ≠ queryKey (supply + 1) d
    cases h : d.truthy <;> simp [queryKey, h]

theorem distinct_identities_witness :
    (createEndpoint cfgC7 0).1.uuid ≠
      (createEndpoint cfgC7 (createEndpoint cfgC7 0).2).1.uuid :=
  (distinct_identities cfgC7 0).1

/-- Concrete endpoint handle for checking C10. -/
def epC10 : Endpoint := (createEndpoint cfgC7 0).1

/-- A transport failing with a network error. -/
def tC10 : Transport := fun _ => .error "boom"

/-- Caller query options supplying an onError hook. -/
def oC10 : ReactQueryOptions := { hasOnError := true }

/-- C10: the adapter fetch functions resolve to only the schema-validated
response body while the direct callable resolves to the full transport
envelope (the `AxiosResponse` with status and headers); on failure the
query-path `queryFn` invokes the caller-supplied onError hook with the
error and the original payload and re-raises the unchanged error. -/
theorem adapter_fns_unwrap (ep : Endpoint) (t : Transport) (o : ReactQueryOptions) :
    (∀ resp, (ep.call t o.data).1 = .ok resp →
      (queryFnRun ep o t).1 = .ok resp.data
      ∧ mutationFnRun ep t o.data = .ok resp.data)
    ∧ (∀ e, (ep.call t o.data).1 = .error e →
      (queryFnRun ep o t).1 = .error e
      ∧ (o.hasOnError = true →
          (queryFnRun ep o t).2 = [HookEvent.calledOnError e o.data])
      ∧ mutationFnRun ep t o.data = .error e) := by
  constructor
  · intro resp h
    constructor
    · unfold queryFnRun
      rw [show (ep.call t o.data).1 = (call ep.config t o.data).1 from rfl] at h
      rw [h]
    · unfold mutationFnRun
      rw [show (ep.call t o.data).1 = (call ep.config t o.data).1 from rfl] at h
      rw [h]
  · intro e h
    rw [show (ep.call t o.data).1 = (call ep.config t o.data).1 from rfl] at h
    refine ⟨?_, ?_, ?_⟩
    · unfold queryFnRun
      rw [h]
    · intro hook
      unfold queryFnRun
      rw [h]
      simp [hook]
    · unfold mutationFnRun
      rw [h]

theorem adapter_fns_unwrap_witness :
    (queryFnRun epC10 oC10 tC10).1 = .error (.axios "boom")
    ∧ (queryFnRun epC10 oC10 tC10).2 =
        [HookEvent.calledOnError (.axios "boom") Value.undefined]
    ∧ mutationFnRun epC10 tC10 oC10.data = .error (.axios "boom") := by
  have h := (adapter_fns_unwrap epC10 tC10 oC10).2 (.axios "boom") rfl
  exact ⟨h.1, h.2.1 rfl, h.2.2⟩

end ApiClient
